import Mathlib

/-!
Verification of the job-queue / notification core of the Anime SaaS repository
(src/backend/src/services/queueService.ts, with the Redis bootstrap from the
backend utils and the schema from src/backend/prisma/schema.prisma).

The embedding below is a shallow one. Pure data (job payloads, queue options,
backend responses) become Lean structures. The effectful pipeline (Prisma
writes, socket emissions, usage-log inserts) becomes a trace of explicit
`Effect` values produced by executable functions translated statement by
statement from the TypeScript source. The BullMQ library itself is external
to the repository; the driver `runAttempts` models its documented retry
contract: a job configured with `attempts = n` is attempted up to `n` times,
a throwing processor triggers the worker failed event on EVERY failed attempt
(the check whether attempts remain happens inside the library when it decides
whether to re-queue the job, after the failed event listeners already ran),
and the worker completed event fires once when a processor call resolves.
Priorities in BullMQ order jobs within one queue only, and a LOWER priority
number is fetched first.
-/

namespace Anime

/-- Content type of a generated output, from prisma enum ContentType. -/
inductive ContentType
  | IMAGE
  | VIDEO
deriving DecidableEq, Repr

/-- Status of a GeneratedOutput row, from prisma enum GenerationStatus. -/
inductive GenerationStatus
  | PENDING
  | PROCESSING
  | COMPLETED
  | FAILED
deriving DecidableEq, Repr

/-- Job payload, from interface GenerationJobData in queueService.ts. The
style field is an untyped JSON blob in the source and is kept opaque as a
string here. -/
structure GenerationJobData where
  userId : String
  promptId : String
  outputId : String
  type : ContentType
  prompt : String
  style : String
  audioTrackId : Option String
deriving DecidableEq, Repr

/-- Backoff options of a queue, from the defaultJobOptions in setupQueues. -/
structure BackoffOptions where
  type : String
  delay : Nat
deriving DecidableEq, Repr

/-- Default job options of a queue, from the defaultJobOptions in setupQueues. -/
structure JobOptions where
  removeOnComplete : Nat
  removeOnFail : Nat
  attempts : Nat
  backoff : BackoffOptions
deriving DecidableEq, Repr

/-- Options of the image-generation queue, queueService.ts lines 24 to 35. -/
def imageQueueJobOptions : JobOptions :=
  { removeOnComplete := 10
    removeOnFail := 20
    attempts := 3
    backoff := { type := "exponential", delay := 2000 } }

/-- Options of the video-generation queue, queueService.ts lines 37 to 48. -/
def videoQueueJobOptions : JobOptions :=
  { removeOnComplete := 5
    removeOnFail := 10
    attempts := 2
    backoff := { type := "exponential", delay := 5000 } }

/-- Name of the image queue, shared by its Queue and Worker constructions. -/
def imageQueueName : String := "image-generation"

/-- Name of the video queue, shared by its Queue and Worker constructions. -/
def videoQueueName : String := "video-generation"

/-- Concurrency passed to the image Worker construction, queueService.ts line 57. -/
def imageWorkerConcurrency : Nat := 2

/-- Concurrency passed to the video Worker construction, queueService.ts line 68. -/
def videoWorkerConcurrency : Nat := 1

/-- Priority passed by addImageGenerationJob, queueService.ts line 224. -/
def imageJobPriority : Nat := 10

/-- Priority passed by addVideoGenerationJob, queueService.ts line 230. -/
def videoJobPriority : Nat := 5

/-- Hard axios timeout of the image backend call, queueService.ts line 120. -/
def imageRequestTimeoutMs : Nat := 300000

/-- Hard axios timeout of the video backend call, queueService.ts line 159. -/
def videoRequestTimeoutMs : Nat := 600000

/-- Outbound HTTP request to the Generation Backend, as built by
processImageGeneration and processVideoGeneration. -/
structure AxiosRequest where
  path : String
  timeoutMs : Nat
  prompt : String
  style : String
  outputId : String
  audioTrackId : Option String
deriving DecidableEq, Repr

/-- Request built by processImageGeneration, queueService.ts lines 115 to 121. -/
def imageGenerationRequest (data : GenerationJobData) : AxiosRequest :=
  { path := "/generate/image"
    timeoutMs := imageRequestTimeoutMs
    prompt := data.prompt
    style := data.style
    outputId := data.outputId
    audioTrackId := none }

/-- Request built by processVideoGeneration, queueService.ts lines 153 to 160. -/
def videoGenerationRequest (data : GenerationJobData) : AxiosRequest :=
  { path := "/generate/video"
    timeoutMs := videoRequestTimeoutMs
    prompt := data.prompt
    style := data.style
    outputId := data.outputId
    audioTrackId := data.audioTrackId }

/-- Successful JSON response of the Generation Backend: filePath,
thumbnailPath and an opaque metadata blob. -/
structure BackendResponse where
  filePath : String
  thumbnailPath : String
  metadata : String
deriving DecidableEq, Repr

/-- Environment behaviour of one processor attempt: either the backend call
resolves (with its response and the measured wall-clock duration in
milliseconds), or the backend call throws (error, timeout or exception), or
the backend call resolves but the subsequent Prisma update throws before the
row is written. -/
inductive AttemptOutcome
  | backendOk (resp : BackendResponse) (durationMs : Nat)
  | backendError (message : String)
  | persistError (resp : BackendResponse) (durationMs : Nat) (message : String)
deriving DecidableEq, Repr

/-- Message carried by a failing attempt, none for a successful one. -/
def AttemptOutcome.failureMessage : AttemptOutcome → Option String
  | AttemptOutcome.backendOk _ _ => none
  | AttemptOutcome.backendError m => some m
  | AttemptOutcome.persistError _ _ m => some m

/-- Whether the attempt makes the processor throw. -/
def AttemptOutcome.isFailure (o : AttemptOutcome) : Bool :=
  o.failureMessage.isSome

/-- Payload of a socket emission, from the object literals in the completed
handlers and in handleJobFailure. -/
inductive NotifyPayload
  | complete (outputId : String) (ctype : ContentType) (status : GenerationStatus)
  | failure (outputId : String) (ctype : ContentType) (error : String)
deriving DecidableEq, Repr

/-- Observable side effect of the pipeline: a Prisma write against the
generated_outputs table, a usage_logs insert, or a socket emission. -/
inductive Effect
  | updateStatus (outputId : String) (status : GenerationStatus)
  | updateCompleted (outputId : String) (filePath : String) (thumbnailPath : String)
      (processingTime : Nat) (metadata : String)
  | updateFailed (outputId : String) (errorMessage : String)
  | createUsageLog (userId : String) (act : String) (processingTime : Nat) (metadata : String)
  | emitToUser (channel : String) (event : String) (payload : NotifyPayload)
deriving DecidableEq, Repr

/-- Math.round of a nonnegative millisecond count divided by 1000, as in
processingTime = Math.round((endTime - startTime) / 1000). -/
def roundMsToSeconds (ms : Nat) : Nat :=
  (ms + 500) / 1000

/-- One processor call, the shared body of processImageGeneration
(queueService.ts lines 107 to 143) and processVideoGeneration (lines 145 to
182), parametrised by the usage-log action string that differs between them.
Returns the effects the attempt performed and the error message it rethrew,
none on success. The PROCESSING write happens first in every case; on
success the row is updated to COMPLETED with the response fields and a
usage-log row is inserted; on a backend error or timeout nothing further is
written; on a persistence error the COMPLETED update threw, so no row was
written. -/
def processGenerationAttempt (act : String) (data : GenerationJobData) :
    AttemptOutcome → List Effect × Option String
  | AttemptOutcome.backendOk resp ms =>
      ([Effect.updateStatus data.outputId GenerationStatus.PROCESSING,
        Effect.updateCompleted data.outputId resp.filePath resp.thumbnailPath
          (roundMsToSeconds ms) resp.metadata,
        Effect.createUsageLog data.userId act (roundMsToSeconds ms) resp.metadata], none)
  | AttemptOutcome.backendError m =>
      ([Effect.updateStatus data.outputId GenerationStatus.PROCESSING], some m)
  | AttemptOutcome.persistError _ _ m =>
      ([Effect.updateStatus data.outputId GenerationStatus.PROCESSING], some m)

/-- Effects of handleJobFailure, queueService.ts lines 191 to 205: write
status FAILED with the error message, then emit generation-failed on the
channel of the owning user, with the content type taken from the job data. -/
def handleJobFailure (jobData : GenerationJobData) (errorMessage : String) : List Effect :=
  [Effect.updateFailed jobData.outputId errorMessage,
   Effect.emitToUser ("user-" ++ jobData.userId) "generation-failed"
     (NotifyPayload.failure jobData.outputId jobData.type errorMessage)]

/-- Effects of the worker completed listener (queueService.ts lines 72 to 79
for image, 88 to 95 for video): emit generation-complete with the content
type hardcoded per worker, not read from the job data. -/
def onCompleted (queueType : ContentType) (data : GenerationJobData) : List Effect :=
  [Effect.emitToUser ("user-" ++ data.userId) "generation-complete"
     (NotifyPayload.complete data.outputId queueType GenerationStatus.COMPLETED)]

/-- BullMQ driver for one job: with n attempts remaining and a pending
attempt outcome, run the processor once; if it resolves, the completed
listener runs; if it throws, the failed listener runs (this happens on every
failed attempt, whether or not attempts remain) and, when attempts remain,
the job is re-queued after the backoff delay and attempted again. The list
of outcomes supplies the behaviour of the environment at each attempt. -/
def runAttempts (act : String) (queueType : ContentType) (data : GenerationJobData) :
    Nat → List AttemptOutcome → List Effect
  | 0, _ => []
  | _ + 1, [] => []
  | n + 1, o :: rest =>
      match processGenerationAttempt act data o with
      | (effs, none) => effs ++ onCompleted queueType data
      | (effs, some msg) =>
          effs ++ handleJobFailure data msg ++ runAttempts act queueType data n rest

/-- Lifecycle of one job on the image queue: the worker runs
processImageGeneration, the queue is configured with 3 attempts, the
completed listener reports type IMAGE. -/
def runImageJob (data : GenerationJobData) (outcomes : List AttemptOutcome) : List Effect :=
  runAttempts "generate_image" ContentType.IMAGE data imageQueueJobOptions.attempts outcomes

/-- Lifecycle of one job on the video queue: the worker runs
processVideoGeneration, the queue is configured with 2 attempts, the
completed listener reports type VIDEO. -/
def runVideoJob (data : GenerationJobData) (outcomes : List AttemptOutcome) : List Effect :=
  runAttempts "generate_video" ContentType.VIDEO data videoQueueJobOptions.attempts outcomes

/-- Sequence of status values written to the row of the given output id by a
trace, in order. An updateCompleted write sets status COMPLETED and an
updateFailed write sets status FAILED alongside their other fields. -/
def statusWrites (oid : String) (t : List Effect) : List GenerationStatus :=
  t.filterMap fun e =>
    match e with
    | Effect.updateStatus o s => if o = oid then some s else none
    | Effect.updateCompleted o _ _ _ _ => if o = oid then some GenerationStatus.COMPLETED else none
    | Effect.updateFailed o _ => if o = oid then some GenerationStatus.FAILED else none
    | _ => none

/-- Status history of an output row: the row is created with status PENDING
by the submitting route when the prompt is accepted, then receives the
writes of the trace. -/
def statusHistory (oid : String) (t : List Effect) : List GenerationStatus :=
  GenerationStatus.PENDING :: statusWrites oid t

/-- Forward transitions of the documented lifecycle: PENDING to PROCESSING,
PROCESSING to a terminal state. In particular no transition leaves COMPLETED
or FAILED. -/
def forwardStep : GenerationStatus → GenerationStatus → Bool
  | GenerationStatus.PENDING, GenerationStatus.PROCESSING => true
  | GenerationStatus.PROCESSING, GenerationStatus.COMPLETED => true
  | GenerationStatus.PROCESSING, GenerationStatus.FAILED => true
  | _, _ => false

/-- Whether every adjacent pair of a status history is a forward transition. -/
def statusMonotone : List GenerationStatus → Bool
  | [] => true
  | [_] => true
  | a :: b :: rest => forwardStep a b && statusMonotone (b :: rest)

/-- Socket emissions of a trace, as (channel, event, payload) triples. -/
def notifyEvents (t : List Effect) : List (String × String × NotifyPayload) :=
  t.filterMap fun e =>
    match e with
    | Effect.emitToUser ch ev p => some (ch, ev, p)
    | _ => none

/-- Socket emissions of a trace carrying the given event name, as
(channel, payload) pairs. -/
def eventsNamed (ev : String) (t : List Effect) : List (String × NotifyPayload) :=
  t.filterMap fun e =>
    match e with
    | Effect.emitToUser ch e2 p => if e2 = ev then some (ch, p) else none
    | _ => none

/-- Usage-log rows inserted by a trace, as (userId, action, processingTime,
metadata) tuples. -/
def usageLogs (t : List Effect) : List (String × String × Nat × String) :=
  t.filterMap fun e =>
    match e with
    | Effect.createUsageLog u a p m => some (u, a, p, m)
    | _ => none

/-- COMPLETED writes of a trace against the given output id, as (filePath,
thumbnailPath, processingTime, metadata) tuples. -/
def completedWrites (oid : String) (t : List Effect) : List (String × String × Nat × String) :=
  t.filterMap fun e =>
    match e with
    | Effect.updateCompleted o f th p m => if o = oid then some (f, th, p, m) else none
    | _ => none

/-- Error messages of the FAILED writes of a trace against the given output id. -/
def failedWrites (oid : String) (t : List Effect) : List String :=
  t.filterMap fun e =>
    match e with
    | Effect.updateFailed o m => if o = oid then some m else none
    | _ => none

/-- Persisted GeneratedOutput row, the columns touched by the pipeline, from
model GeneratedOutput in schema.prisma. -/
structure OutputRow where
  status : GenerationStatus
  filePath : Option String
  thumbnailPath : Option String
  processingTime : Option Nat
  metadata : Option String
  errorMessage : Option String
deriving DecidableEq, Repr

/-- Row as created by the submitting route: status PENDING, no result fields. -/
def initialRow : OutputRow :=
  { status := GenerationStatus.PENDING
    filePath := none
    thumbnailPath := none
    processingTime := none
    metadata := none
    errorMessage := none }

/-- Prisma update semantics of one effect on the row of the given output id:
an update sets exactly the fields named in its data object and leaves the
others unchanged; effects addressed to other rows or tables leave the row
unchanged. -/
def applyEffect (oid : String) (row : OutputRow) : Effect → OutputRow
  | Effect.updateStatus o s => if o = oid then { row with status := s } else row
  | Effect.updateCompleted o f th p m =>
      if o = oid then
        { row with status := GenerationStatus.COMPLETED, filePath := some f,
                   thumbnailPath := some th, processingTime := some p, metadata := some m }
      else row
  | Effect.updateFailed o m =>
      if o = oid then
        { row with status := GenerationStatus.FAILED, errorMessage := some m }
      else row
  | Effect.createUsageLog _ _ _ _ => row
  | Effect.emitToUser _ _ _ => row

/-- Row obtained by applying a trace of effects in order. -/
def applyTrace (oid : String) (row : OutputRow) (t : List Effect) : OutputRow :=
  t.foldl (applyEffect oid) row

/-- Sample job payload for concrete evaluations. -/
def sampleData : GenerationJobData :=
  { userId := "u1"
    promptId := "p1"
    outputId := "o1"
    type := ContentType.IMAGE
    prompt := "cat"
    style := "anime"
    audioTrackId := none }

/-- Sample backend response for concrete evaluations. -/
def sampleResp : BackendResponse :=
  { filePath := "/f.png", thumbnailPath := "/t.png", metadata := "w512h512" }

/-- Fetch order of two priority values on ONE BullMQ queue: the job with the
lower priority number is dispatched first (BullMQ priorities range from 1,
highest, to 2097152, lowest). The image and video jobs of this repository
are placed on two distinct queues, so their priorities are in fact never
compared by the library; this definition expresses what the comparison would
yield if they were. -/
def dispatchedBefore (p q : Nat) : Bool :=
  p < q

/-- Insertion of a value into an ascending list, keeping it ascending. -/
def insertOrdered (x : Nat) : List Nat → List Nat
  | [] => [x]
  | y :: ys => if x ≤ y then x :: y :: ys else y :: insertOrdered x ys

/-- Greedy start times of a worker pool: the first argument is the ascending
list of instants at which each worker slot becomes free, the second the
durations of the queued jobs in fetch order. Each job starts on the earliest
free slot; a pool with no slots starts nothing. This models a BullMQ worker
of concurrency c, which runs at most c processor calls at once and fetches
the next job as soon as a slot frees up. -/
def poolStartTimes : List Nat → List Nat → List Nat
  | _, [] => []
  | [], _ :: _ => []
  | t :: rest, d :: ds => t :: poolStartTimes (insertOrdered (t + d) rest) ds

/-- Start times of jobs with the given durations on a worker of concurrency
c, all slots free at instant 0. -/
def workerStartTimes (c : Nat) (durations : List Nat) : List Nat :=
  poolStartTimes (List.replicate c 0) durations

/-- Completion times of jobs with the given durations on a worker of
concurrency c: start time plus duration. -/
def completionTimes (c : Nat) (durations : List Nat) : List Nat :=
  List.zipWith (· + ·) (workerStartTimes c durations) durations

/-- State of one worker pool: jobs waiting on its queue, jobs whose
processor call is running, jobs finished (completed or finally failed). -/
structure WorkerPoolState where
  waiting : List String
  active : List String
  done : List String
deriving DecidableEq, Repr

/-- Transitions of a BullMQ worker of concurrency c, per the library
contract the Worker construction in setupQueues relies on: a worker slot
fetches the next waiting job only while fewer than c processor calls are
running, and each slot runs one job at a time until its processor call
returns. -/
inductive WorkerStep (c : Nat) : WorkerPoolState → WorkerPoolState → Prop
  | start (s : WorkerPoolState) (j : String) (rest : List String)
      (hfree : s.active.length < c) (hwait : s.waiting = j :: rest) :
      WorkerStep c s { waiting := rest, active := j :: s.active, done := s.done }
  | finish (s : WorkerPoolState) (j : String) (l1 l2 : List String)
      (hact : s.active = l1 ++ j :: l2) :
      WorkerStep c s { waiting := s.waiting, active := l1 ++ l2, done := j :: s.done }

/-- Reachability under worker steps. -/
inductive WorkerReachable (c : Nat) : WorkerPoolState → WorkerPoolState → Prop
  | refl (s : WorkerPoolState) : WorkerReachable c s s
  | step (s t u : WorkerPoolState) :
      WorkerReachable c s t → WorkerStep c t u → WorkerReachable c s u

/-- Redis connection handle, from the backend redis util. -/
structure RedisConnection where
  url : String
deriving DecidableEq, Repr

/-- Handle of a BullMQ queue as constructed in setupQueues, together with
the jobs added to it as (job name, payload, priority) triples. -/
structure QueueHandle where
  queueName : String
  defaultJobOptions : JobOptions
  jobs : List (String × GenerationJobData × Nat)
deriving DecidableEq, Repr

/-- Module-level mutable handles of the backend: the redis singleton of the
redis util and the two queue variables declared at the top of
queueService.ts. All start out unassigned. -/
structure ModuleState where
  redis : Option RedisConnection
  imageQueue : Option QueueHandle
  videoQueue : Option QueueHandle
deriving DecidableEq, Repr

/-- Handles before any setup call has run. -/
def initialModuleState : ModuleState :=
  { redis := none, imageQueue := none, videoQueue := none }

/-- getRedis from the redis util: throws when the redis handle was never
assigned by setupRedis. -/
def getRedis (s : ModuleState) : Except String RedisConnection :=
  match s.redis with
  | none => Except.error "Redis not initialized. Call setupRedis() first."
  | some r => Except.ok r

/-- setupRedis from the redis util: connects and assigns the module handle. -/
def setupRedis (url : String) (s : ModuleState) : ModuleState :=
  { s with redis := some ({ url := url }) }

/-- setupQueues, queueService.ts lines 21 to 105: reads the redis handle
through getRedis (so it throws when setupRedis has not run) and assigns the
two queue handles with their default job options. -/
def setupQueues (s : ModuleState) : Except String ModuleState :=
  match getRedis s with
  | Except.error e => Except.error e
  | Except.ok _ =>
      Except.ok
        { s with
          imageQueue :=
            some ({ queueName := imageQueueName, defaultJobOptions := imageQueueJobOptions, jobs := [] })
          videoQueue :=
            some ({ queueName := videoQueueName, defaultJobOptions := videoQueueJobOptions, jobs := [] }) }

/-- addImageGenerationJob, queueService.ts lines 222 to 226: calls add on
the module-level image queue handle with job name generate-image and
priority 10, performing no check of the payload; when the handle is still
unassigned, reading add off undefined throws a TypeError and nothing is
enqueued. -/
def addImageGenerationJob (s : ModuleState) (data : GenerationJobData) :
    Except String ModuleState :=
  match s.imageQueue with
  | none => Except.error "TypeError: imageQueue is undefined"
  | some q =>
      Except.ok
        { s with
          imageQueue :=
            some ({ q with jobs := q.jobs ++ [("generate-image", data, imageJobPriority)] }) }

/-- addVideoGenerationJob, queueService.ts lines 228 to 232: same shape as
addImageGenerationJob, with job name generate-video and priority 5. -/
def addVideoGenerationJob (s : ModuleState) (data : GenerationJobData) :
    Except String ModuleState :=
  match s.videoQueue with
  | none => Except.error "TypeError: videoQueue is undefined"
  | some q =>
      Except.ok
        { s with
          videoQueue :=
            some ({ q with jobs := q.jobs ++ [("generate-video", data, videoJobPriority)] }) }

/-- Sample job payload whose declared type disagrees with the image queue. -/
def mismatchedData : GenerationJobData :=
  { sampleData with type := ContentType.VIDEO }

/-- Sample image queue handle of an initialised module. -/
def sampleQueueHandle : QueueHandle :=
  { queueName := imageQueueName, defaultJobOptions := imageQueueJobOptions, jobs := [] }

/-- Sample module state after setup has run. -/
def sampleReadyState : ModuleState :=
  { redis := some ({ url := "redis://localhost:6379" })
    imageQueue := some sampleQueueHandle
    videoQueue := some
      ({ queueName := videoQueueName, defaultJobOptions := videoQueueJobOptions, jobs := [] }) }

end Anime

namespace Anime

/-- C1: the spec states that a GeneratedOutput status moves monotonically
PENDING, PROCESSING, then a terminal state, and that no operation changes a
status that is already COMPLETED or FAILED. The code violates this: the
worker failed listener runs handleJobFailure on EVERY failed attempt, so an
image job whose first backend call fails with a timeout and whose retry
succeeds writes the status sequence PROCESSING, FAILED, PROCESSING,
COMPLETED, leaving the terminal state FAILED. -/
theorem C1_terminal_state_revisited :
    statusHistory "o1"
        (runImageJob sampleData
          [AttemptOutcome.backendError "timeout", AttemptOutcome.backendOk sampleResp 1000]) =
      [GenerationStatus.PENDING, GenerationStatus.PROCESSING, GenerationStatus.FAILED,
       GenerationStatus.PROCESSING, GenerationStatus.COMPLETED] ∧
    statusMonotone
        (statusHistory "o1"
          (runImageJob sampleData
            [AttemptOutcome.backendError "timeout", AttemptOutcome.backendOk sampleResp 1000])) =
      false := by
  exact ⟨rfl, rfl⟩

/-- C3: the claim states that only after all configured attempts are
exhausted is the output marked FAILED and the user notified, and that no
intermediate failure writes FAILED or notifies. The code violates this: on
an image job (3 configured attempts) whose every backend call times out, the
full trace shows three attempts, and already after the first failed attempt,
with two attempts still remaining, the row is written FAILED and a
generation-failed event is emitted. -/
theorem C3_intermediate_failures_surfaced :
    runImageJob sampleData
        [AttemptOutcome.backendError "timeout", AttemptOutcome.backendError "timeout",
         AttemptOutcome.backendError "timeout"] =
      [Effect.updateStatus "o1" GenerationStatus.PROCESSING,
       Effect.updateFailed "o1" "timeout",
       Effect.emitToUser "user-u1" "generation-failed"
         (NotifyPayload.failure "o1" ContentType.IMAGE "timeout"),
       Effect.updateStatus "o1" GenerationStatus.PROCESSING,
       Effect.updateFailed "o1" "timeout",
       Effect.emitToUser "user-u1" "generation-failed"
         (NotifyPayload.failure "o1" ContentType.IMAGE "timeout"),
       Effect.updateStatus "o1" GenerationStatus.PROCESSING,
       Effect.updateFailed "o1" "timeout",
       Effect.emitToUser "user-u1" "generation-failed"
         (NotifyPayload.failure "o1" ContentType.IMAGE "timeout")] := by
  rfl

/-- C6: the claim states that every job reaching a terminal outcome emits
exactly one notification, matching the outcome. The code violates this: an
image job whose first attempt fails and whose retry succeeds reaches the
single terminal outcome COMPLETED but emits two events, a generation-failed
after the first attempt and a generation-complete at the end. -/
theorem C6_two_notifications_for_one_outcome :
    notifyEvents
        (runImageJob sampleData
          [AttemptOutcome.backendError "oops", AttemptOutcome.backendOk sampleResp 1000]) =
      [("user-u1", "generation-failed", NotifyPayload.failure "o1" ContentType.IMAGE "oops"),
       ("user-u1", "generation-complete",
         NotifyPayload.complete "o1" ContentType.IMAGE GenerationStatus.COMPLETED)] ∧
    (notifyEvents
        (runImageJob sampleData
          [AttemptOutcome.backendError "oops", AttemptOutcome.backendOk sampleResp 1000])).length =
      2 := by
  exact ⟨rfl, rfl⟩

/-- C5: the configured constants match the spec: image queue 3 attempts with
exponential backoff starting at 2000 ms and a 300000 ms backend timeout;
video queue 2 attempts with exponential backoff starting at 5000 ms and a
600000 ms backend timeout. -/
theorem C5_configuration_constants (data : GenerationJobData) :
    imageQueueJobOptions.attempts = 3 ∧
    imageQueueJobOptions.backoff.type = "exponential" ∧
    imageQueueJobOptions.backoff.delay = 2000 ∧
    (imageGenerationRequest data).timeoutMs = 300000 ∧
    videoQueueJobOptions.attempts = 2 ∧
    videoQueueJobOptions.backoff.type = "exponential" ∧
    videoQueueJobOptions.backoff.delay = 5000 ∧
    (videoGenerationRequest data).timeoutMs = 600000 := by
  exact ⟨rfl, rfl, rfl, rfl, rfl, rfl, rfl, rfl⟩

/-- Helper: one worker step keeps the number of running processor calls
within the concurrency bound. -/
lemma workerStep_active_le {c : Nat} {s t : WorkerPoolState} (h : WorkerStep c s t)
    (hs : s.active.length ≤ c) : t.active.length ≤ c := by
  cases h with
  | start j rest hfree hwait =>
      simpa using hfree
  | finish j l1 l2 hact =>
      rw [hact] at hs
      simp only [List.length_append, List.length_cons] at hs ⊢
      omega

/-- Helper: every state reachable from a state within the concurrency bound
stays within it. -/
lemma workerReachable_active_le {c : Nat} {s t : WorkerPoolState}
    (h : WorkerReachable c s t) (hs : s.active.length ≤ c) : t.active.length ≤ c := by
  induction h with
  | refl => exact hs
  | step t u _ hstep ih => exact workerStep_active_le hstep ih

/-- C2 amended: the image and video jobs are enqueued on two distinct queues
served by separate workers, so their configured priorities are never
compared by the library; under the BullMQ comparison a lower number is
dispatched first, so the configured numbers would favour the video job, not
the image job, if they ever shared a queue. The image job of the scenario
still begins processing before either video job completes, but because of
queue independence, not priority: with all workers idle at enqueue time the
single image job starts at instant 0, while each video job (of positive
duration) completes strictly later. -/
theorem C2_amended_independent_queues (di d1 d2 : Nat) (h1 : 1 ≤ d1) :
    imageQueueName ≠ videoQueueName ∧
    dispatchedBefore videoJobPriority imageJobPriority = true ∧
    workerStartTimes imageWorkerConcurrency [di] = [0] ∧
    completionTimes videoWorkerConcurrency [d1, d2] = [d1, d1 + d2] ∧
    (∀ t ∈ completionTimes videoWorkerConcurrency [d1, d2], 0 < t) := by
  have hvideo : completionTimes videoWorkerConcurrency [d1, d2] = [d1, d1 + d2] := by
    simp [completionTimes, workerStartTimes, videoWorkerConcurrency, poolStartTimes,
      insertOrdered]
  refine ⟨by decide, rfl, ?_, hvideo, ?_⟩
  · simp [workerStartTimes, imageWorkerConcurrency, poolStartTimes]
  · rw [hvideo]
    intro t ht
    simp only [List.mem_cons, List.mem_singleton, List.not_mem_nil, or_false] at ht
    rcases ht with h | h <;> omega

/-- Witness for C2 amended at concrete durations. -/
theorem C2_amended_independent_queues_witness :
    1 ≤ 4 ∧
    (imageQueueName ≠ videoQueueName ∧
     dispatchedBefore videoJobPriority imageJobPriority = true ∧
     workerStartTimes imageWorkerConcurrency [7] = [0] ∧
     completionTimes videoWorkerConcurrency [4, 9] = [4, 4 + 9] ∧
     (∀ t ∈ completionTimes videoWorkerConcurrency [4, 9], 0 < t)) :=
  ⟨by decide, C2_amended_independent_queues 7 4 9 (by decide)⟩

/-- C8: every state of the image worker pool reachable from an idle pool
runs at most imageWorkerConcurrency = 2 processor calls at once, and every
state of the video worker pool reachable from an idle pool runs at most
videoWorkerConcurrency = 1. -/
theorem C8_bounded_concurrency (qi qv : List String) (s t : WorkerPoolState)
    (hs : WorkerReachable imageWorkerConcurrency
      { waiting := qi, active := [], done := [] } s)
    (ht : WorkerReachable videoWorkerConcurrency
      { waiting := qv, active := [], done := [] } t) :
    s.active.length ≤ imageWorkerConcurrency ∧
    t.active.length ≤ videoWorkerConcurrency ∧
    imageWorkerConcurrency = 2 ∧ videoWorkerConcurrency = 1 :=
  ⟨workerReachable_active_le hs (by simp), workerReachable_active_le ht (by simp), rfl, rfl⟩

/-- Witness for C8 at a concretely reached state: one job started on each
pool. -/
theorem C8_bounded_concurrency_witness :
    (WorkerPoolState.mk [] ["a"] []).active.length ≤ imageWorkerConcurrency ∧
    (WorkerPoolState.mk [] ["b"] []).active.length ≤ videoWorkerConcurrency ∧
    imageWorkerConcurrency = 2 ∧ videoWorkerConcurrency = 1 := by
  have hs : WorkerReachable imageWorkerConcurrency
      { waiting := ["a"], active := [], done := [] } (WorkerPoolState.mk [] ["a"] []) :=
    WorkerReachable.step _ _ _ (WorkerReachable.refl _)
      (WorkerStep.start { waiting := ["a"], active := [], done := [] } "a" []
        (by decide) rfl)
  have ht : WorkerReachable videoWorkerConcurrency
      { waiting := ["b"], active := [], done := [] } (WorkerPoolState.mk [] ["b"] []) :=
    WorkerReachable.step _ _ _ (WorkerReachable.refl _)
      (WorkerStep.start { waiting := ["b"], active := [], done := [] } "b" []
        (by decide) rfl)
  have h := C8_bounded_concurrency ["a"] ["b"] _ _ hs ht
  exact h

/-- C9: with the module-level handles unassigned, addImageGenerationJob and
addVideoGenerationJob throw and enqueue nothing, and setupQueues itself
throws out of getRedis when setupRedis has not run; after setupRedis,
setupQueues succeeds. -/
theorem C9_uninitialized_handles_throw (data : GenerationJobData) :
    addImageGenerationJob initialModuleState data =
      Except.error "TypeError: imageQueue is undefined" ∧
    addVideoGenerationJob initialModuleState data =
      Except.error "TypeError: videoQueue is undefined" ∧
    setupQueues initialModuleState =
      Except.error "Redis not initialized. Call setupRedis() first." ∧
    (∀ url, ∃ s2, setupQueues (setupRedis url initialModuleState) = Except.ok s2) :=
  ⟨rfl, rfl, rfl, fun _ => ⟨_, rfl⟩⟩

/-- C10: the dispatcher does not look at the declared type of the payload,
and the completion event reports the type of the queue the job ran on, not
the type declared in the payload: a payload declared VIDEO but added to the
image queue is enqueued unchanged and its completion event carries type
IMAGE. -/
theorem C10_completion_type_from_queue (data : GenerationJobData) (resp : BackendResponse)
    (ms : Nat) (s : ModuleState) (q : QueueHandle)
    (hq : s.imageQueue = some q)
    (hType : data.type = ContentType.VIDEO) :
    addImageGenerationJob s data =
      Except.ok
        { s with
          imageQueue :=
            some ({ q with jobs := q.jobs ++ [("generate-image", data, imageJobPriority)] }) } ∧
    eventsNamed "generation-complete" (runImageJob data [AttemptOutcome.backendOk resp ms]) =
      [("user-" ++ data.userId,
        NotifyPayload.complete data.outputId ContentType.IMAGE GenerationStatus.COMPLETED)] ∧
    ContentType.IMAGE ≠ data.type := by
  refine ⟨?_, ?_, ?_⟩
  · simp [addImageGenerationJob, hq]
  · rfl
  · rw [hType]
    decide

/-- Witness for C10 at a concrete mismatched payload. -/
theorem C10_completion_type_from_queue_witness :
    sampleReadyState.imageQueue = some sampleQueueHandle ∧
    mismatchedData.type = ContentType.VIDEO ∧
    (addImageGenerationJob sampleReadyState mismatchedData =
      Except.ok
        { sampleReadyState with
          imageQueue :=
            some ({ sampleQueueHandle with
                    jobs := sampleQueueHandle.jobs ++
                      [("generate-image", mismatchedData, imageJobPriority)] }) } ∧
     eventsNamed "generation-complete"
        (runImageJob mismatchedData [AttemptOutcome.backendOk sampleResp 1000]) =
      [("user-" ++ mismatchedData.userId,
        NotifyPayload.complete mismatchedData.outputId ContentType.IMAGE
          GenerationStatus.COMPLETED)] ∧
     ContentType.IMAGE ≠ mismatchedData.type) :=
  ⟨rfl, rfl,
    C10_completion_type_from_queue mismatchedData sampleResp 1000 sampleReadyState
      sampleQueueHandle rfl rfl⟩

/-- C2 counterexample: the claim attributes the dispatch of the image job
ahead of the video jobs to the configured priorities. In BullMQ a LOWER
priority number is dispatched first, so the configured numbers (image 10,
video 5) do not place the image job ahead: the comparison, if it were ever
made, would favour the video job; moreover the two jobs live on distinct
queues, so the priorities are never compared at all. -/
theorem C2_priority_counterexample :
    dispatchedBefore imageJobPriority videoJobPriority = false ∧
    dispatchedBefore videoJobPriority imageJobPriority = true ∧
    imageQueueName ≠ videoQueueName := by
  refine ⟨rfl, rfl, ?_⟩
  decide

end Anime

namespace Anime

lemma runAttempts_nil (act : String) (qt : ContentType) (data : GenerationJobData)
    (n : Nat) : runAttempts act qt data n [] = [] := by
  cases n <;> rfl

lemma runAttempts_fail_cons (act : String) (qt : ContentType) (data : GenerationJobData)
    (n : Nat) (o : AttemptOutcome) (rest : List AttemptOutcome) (m : String)
    (h : o.failureMessage = some m) :
    runAttempts act qt data (n + 1) (o :: rest) =
      (Effect.updateStatus data.outputId GenerationStatus.PROCESSING ::
        handleJobFailure data m) ++ runAttempts act qt data n rest := by
  cases o with
  | backendOk r d => simp [AttemptOutcome.failureMessage] at h
  | backendError m2 =>
      simp [AttemptOutcome.failureMessage] at h
      subst h
      rfl
  | persistError r d m2 =>
      simp [AttemptOutcome.failureMessage] at h
      subst h
      rfl

lemma runAttempts_success (act : String) (qt : ContentType) (data : GenerationJobData)
    (n : Nat) (resp : BackendResponse) (ms : Nat) (rest : List AttemptOutcome) :
    runAttempts act qt data (n + 1) (AttemptOutcome.backendOk resp ms :: rest) =
      [Effect.updateStatus data.outputId GenerationStatus.PROCESSING,
       Effect.updateCompleted data.outputId resp.filePath resp.thumbnailPath
         (roundMsToSeconds ms) resp.metadata,
       Effect.createUsageLog data.userId act (roundMsToSeconds ms) resp.metadata,
       Effect.emitToUser ("user-" ++ data.userId) "generation-complete"
         (NotifyPayload.complete data.outputId qt GenerationStatus.COMPLETED)] := by
  rfl

lemma applyTrace_append (oid : String) (row : OutputRow) (t1 t2 : List Effect) :
    applyTrace oid row (t1 ++ t2) = applyTrace oid (applyTrace oid row t1) t2 := by
  simp [applyTrace, List.foldl_append]

lemma applyTrace_failBlock (data : GenerationJobData) (m : String) (row : OutputRow) :
    applyTrace data.outputId row
      (Effect.updateStatus data.outputId GenerationStatus.PROCESSING ::
        handleJobFailure data m) =
      { row with status := GenerationStatus.FAILED, errorMessage := some m } := by
  simp [applyTrace, handleJobFailure, applyEffect]

lemma usageLogs_append (t1 t2 : List Effect) :
    usageLogs (t1 ++ t2) = usageLogs t1 ++ usageLogs t2 := by
  simp [usageLogs]

lemma eventsNamed_append (ev : String) (t1 t2 : List Effect) :
    eventsNamed ev (t1 ++ t2) = eventsNamed ev t1 ++ eventsNamed ev t2 := by
  simp [eventsNamed]

lemma completedWrites_append (oid : String) (t1 t2 : List Effect) :
    completedWrites oid (t1 ++ t2) = completedWrites oid t1 ++ completedWrites oid t2 := by
  simp [completedWrites]

lemma failedWrites_append (oid : String) (t1 t2 : List Effect) :
    failedWrites oid (t1 ++ t2) = failedWrites oid t1 ++ failedWrites oid t2 := by
  simp [failedWrites]

lemma usageLogs_failBlock (data : GenerationJobData) (m : String) :
    usageLogs (Effect.updateStatus data.outputId GenerationStatus.PROCESSING ::
      handleJobFailure data m) = [] := by
  rfl

lemma completedWrites_failBlock (oid : String) (data : GenerationJobData) (m : String) :
    completedWrites oid (Effect.updateStatus data.outputId GenerationStatus.PROCESSING ::
      handleJobFailure data m) = [] := by
  rfl

lemma eventsNamed_complete_failBlock (data : GenerationJobData) (m : String) :
    eventsNamed "generation-complete"
      (Effect.updateStatus data.outputId GenerationStatus.PROCESSING ::
        handleJobFailure data m) = [] := by
  rfl

lemma failedWrites_failBlock (data : GenerationJobData) (m : String) :
    failedWrites data.outputId
      (Effect.updateStatus data.outputId GenerationStatus.PROCESSING ::
        handleJobFailure data m) = [m] := by
  simp [failedWrites, handleJobFailure]

lemma eventsNamed_failed_failBlock (data : GenerationJobData) (m : String) :
    eventsNamed "generation-failed"
      (Effect.updateStatus data.outputId GenerationStatus.PROCESSING ::
        handleJobFailure data m) =
      [("user-" ++ data.userId, NotifyPayload.failure data.outputId data.type m)] := by
  simp [eventsNamed, handleJobFailure]

end Anime

namespace Anime

lemma attemptOutcome_failure_message {o : AttemptOutcome} (h : o.isFailure = true) :
    ∃ m, o.failureMessage = some m := by
  cases o <;> simp [AttemptOutcome.isFailure, AttemptOutcome.failureMessage] at h ⊢

lemma run_fail_prefix_success (act : String) (qt : ContentType) (data : GenerationJobData)
    (resp : BackendResponse) (ms : Nat) :
    ∀ (pre : List AttemptOutcome) (n : Nat), pre.length < n →
      (∀ o ∈ pre, o.isFailure = true) → ∀ (row : OutputRow),
      ((applyTrace data.outputId row
          (runAttempts act qt data n (pre ++ [AttemptOutcome.backendOk resp ms]))).status =
        GenerationStatus.COMPLETED ∧
       (applyTrace data.outputId row
          (runAttempts act qt data n (pre ++ [AttemptOutcome.backendOk resp ms]))).filePath =
        some resp.filePath ∧
       (applyTrace data.outputId row
          (runAttempts act qt data n (pre ++ [AttemptOutcome.backendOk resp ms]))).thumbnailPath =
        some resp.thumbnailPath ∧
       (applyTrace data.outputId row
          (runAttempts act qt data n (pre ++ [AttemptOutcome.backendOk resp ms]))).processingTime =
        some (roundMsToSeconds ms) ∧
       (applyTrace data.outputId row
          (runAttempts act qt data n (pre ++ [AttemptOutcome.backendOk resp ms]))).metadata =
        some resp.metadata) ∧
      usageLogs (runAttempts act qt data n (pre ++ [AttemptOutcome.backendOk resp ms])) =
        [(data.userId, act, roundMsToSeconds ms, resp.metadata)] ∧
      eventsNamed "generation-complete"
          (runAttempts act qt data n (pre ++ [AttemptOutcome.backendOk resp ms])) =
        [("user-" ++ data.userId,
          NotifyPayload.complete data.outputId qt GenerationStatus.COMPLETED)] ∧
      completedWrites data.outputId
          (runAttempts act qt data n (pre ++ [AttemptOutcome.backendOk resp ms])) =
        [(resp.filePath, resp.thumbnailPath, roundMsToSeconds ms, resp.metadata)] := by
  intro pre
  induction pre with
  | nil =>
      intro n hn hfail row
      obtain ⟨k, rfl⟩ : ∃ k, n = k + 1 := ⟨n - 1, by omega⟩
      rw [List.nil_append, runAttempts_success]
      constructor
      · refine ⟨?_, ?_, ?_, ?_, ?_⟩ <;> simp [applyTrace, applyEffect]
      · refine ⟨?_, ?_, ?_⟩ <;> simp [usageLogs, eventsNamed, completedWrites]
  | cons o pre ih =>
      intro n hn hfail row
      obtain ⟨m, hm⟩ := attemptOutcome_failure_message (hfail o (by simp))
      obtain ⟨k, rfl⟩ : ∃ k, n = k + 1 := ⟨n - 1, by omega⟩
      rw [List.cons_append, runAttempts_fail_cons act qt data k o _ m hm]
      have hk : pre.length < k := by
        simp only [List.length_cons] at hn
        omega
      obtain ⟨hrow, hlogs, hev, hcw⟩ :=
        ih k hk (fun x hx => hfail x (List.mem_cons_of_mem _ hx))
          { row with status := GenerationStatus.FAILED, errorMessage := some m }
      refine ⟨?_, ?_, ?_, ?_⟩
      · rw [applyTrace_append, applyTrace_failBlock]
        exact hrow
      · rw [usageLogs_append, usageLogs_failBlock, hlogs]
        rfl
      · rw [eventsNamed_append, eventsNamed_complete_failBlock, hev]
        rfl
      · rw [completedWrites_append, completedWrites_failBlock, hcw]
        rfl

end Anime

namespace Anime

lemma run_all_fail (act : String) (qt : ContentType) (data : GenerationJobData) :
    ∀ (outcomes : List AttemptOutcome) (n : Nat),
      (∀ o ∈ outcomes, o.isFailure = true) →
      failedWrites data.outputId (runAttempts act qt data n outcomes) =
        (outcomes.take n).map (fun o => o.failureMessage.getD "") ∧
      eventsNamed "generation-failed" (runAttempts act qt data n outcomes) =
        (outcomes.take n).map (fun o =>
          ("user-" ++ data.userId,
            NotifyPayload.failure data.outputId data.type (o.failureMessage.getD ""))) ∧
      (∀ row : OutputRow, outcomes ≠ [] → n ≠ 0 →
        (applyTrace data.outputId row (runAttempts act qt data n outcomes)).status =
          GenerationStatus.FAILED ∧
        ∃ m, m ∈ (outcomes.take n).map (fun o => o.failureMessage.getD "") ∧
          (applyTrace data.outputId row (runAttempts act qt data n outcomes)).errorMessage =
            some m) := by
  intro outcomes
  induction outcomes with
  | nil =>
      intro n hfail
      rw [runAttempts_nil]
      refine ⟨by simp [failedWrites], by simp [eventsNamed], ?_⟩
      intro row hne
      exact absurd rfl hne
  | cons o rest ih =>
      intro n hfail
      cases n with
      | zero =>
          refine ⟨by simp [runAttempts, failedWrites], by simp [runAttempts, eventsNamed], ?_⟩
          intro row hne hk
          exact absurd rfl hk
      | succ k =>
          obtain ⟨m, hm⟩ := attemptOutcome_failure_message (hfail o (by simp))
          have hfr : ∀ x ∈ rest, x.isFailure = true :=
            fun x hx => hfail x (List.mem_cons_of_mem _ hx)
          obtain ⟨ih1, ih2, ih3⟩ := ih k hfr
          rw [runAttempts_fail_cons act qt data k o rest m hm]
          refine ⟨?_, ?_, ?_⟩
          · rw [failedWrites_append, failedWrites_failBlock, ih1]
            simp [hm]
          · rw [eventsNamed_append, eventsNamed_failed_failBlock, ih2]
            simp [hm]
          · intro row hne hk
            rw [applyTrace_append, applyTrace_failBlock]
            by_cases hempty : runAttempts act qt data k rest = []
            · rw [hempty]
              refine ⟨rfl, m, ?_, rfl⟩
              simp [hm]
            · have hrne : rest ≠ [] := by
                intro h
                exact hempty (by rw [h]; exact runAttempts_nil act qt data k)
              have hkne : k ≠ 0 := by
                intro h
                subst h
                exact hempty rfl
              obtain ⟨h3a, m2, hmem, hmsg⟩ :=
                ih3 { row with status := GenerationStatus.FAILED, errorMessage := some m }
                  hrne hkne
              refine ⟨h3a, m2, ?_, hmsg⟩
              rw [List.take_succ_cons, List.map_cons]
              exact List.mem_cons_of_mem _ hmem

end Anime

namespace Anime

/-- C4: a job whose backend call eventually succeeds, after any sequence of
failed attempts short of exhausting the configured attempts of its queue (3
for image, 2 for video), ends with its row COMPLETED carrying filePath,
thumbnailPath and metadata of the successful response and processingTime
equal to the rounded measured duration in seconds, inserts exactly one
usage-log row (with action generate_image on the image queue and
generate_video on the video queue), and emits exactly one
generation-complete event, addressed to the channel of the owning user (the
failed attempts before it do additionally surface generation-failed events,
settled separately under C3 and C6). -/
theorem C4_eventual_success (data : GenerationJobData) (pre : List AttemptOutcome)
    (resp : BackendResponse) (ms : Nat)
    (hfail : ∀ o ∈ pre, o.isFailure = true) :
    (pre.length < imageQueueJobOptions.attempts →
      (applyTrace data.outputId initialRow
          (runImageJob data (pre ++ [AttemptOutcome.backendOk resp ms]))).status =
        GenerationStatus.COMPLETED ∧
      (applyTrace data.outputId initialRow
          (runImageJob data (pre ++ [AttemptOutcome.backendOk resp ms]))).filePath =
        some resp.filePath ∧
      (applyTrace data.outputId initialRow
          (runImageJob data (pre ++ [AttemptOutcome.backendOk resp ms]))).thumbnailPath =
        some resp.thumbnailPath ∧
      (applyTrace data.outputId initialRow
          (runImageJob data (pre ++ [AttemptOutcome.backendOk resp ms]))).processingTime =
        some (roundMsToSeconds ms) ∧
      (applyTrace data.outputId initialRow
          (runImageJob data (pre ++ [AttemptOutcome.backendOk resp ms]))).metadata =
        some resp.metadata ∧
      usageLogs (runImageJob data (pre ++ [AttemptOutcome.backendOk resp ms])) =
        [(data.userId, "generate_image", roundMsToSeconds ms, resp.metadata)] ∧
      eventsNamed "generation-complete"
          (runImageJob data (pre ++ [AttemptOutcome.backendOk resp ms])) =
        [("user-" ++ data.userId,
          NotifyPayload.complete data.outputId ContentType.IMAGE GenerationStatus.COMPLETED)] ∧
      completedWrites data.outputId
          (runImageJob data (pre ++ [AttemptOutcome.backendOk resp ms])) =
        [(resp.filePath, resp.thumbnailPath, roundMsToSeconds ms, resp.metadata)]) ∧
    (pre.length < videoQueueJobOptions.attempts →
      (applyTrace data.outputId initialRow
          (runVideoJob data (pre ++ [AttemptOutcome.backendOk resp ms]))).status =
        GenerationStatus.COMPLETED ∧
      (applyTrace data.outputId initialRow
          (runVideoJob data (pre ++ [AttemptOutcome.backendOk resp ms]))).filePath =
        some resp.filePath ∧
      (applyTrace data.outputId initialRow
          (runVideoJob data (pre ++ [AttemptOutcome.backendOk resp ms]))).thumbnailPath =
        some resp.thumbnailPath ∧
      (applyTrace data.outputId initialRow
          (runVideoJob data (pre ++ [AttemptOutcome.backendOk resp ms]))).processingTime =
        some (roundMsToSeconds ms) ∧
      (applyTrace data.outputId initialRow
          (runVideoJob data (pre ++ [AttemptOutcome.backendOk resp ms]))).metadata =
        some resp.metadata ∧
      usageLogs (runVideoJob data (pre ++ [AttemptOutcome.backendOk resp ms])) =
        [(data.userId, "generate_video", roundMsToSeconds ms, resp.metadata)] ∧
      eventsNamed "generation-complete"
          (runVideoJob data (pre ++ [AttemptOutcome.backendOk resp ms])) =
        [("user-" ++ data.userId,
          NotifyPayload.complete data.outputId ContentType.VIDEO GenerationStatus.COMPLETED)] ∧
      completedWrites data.outputId
          (runVideoJob data (pre ++ [AttemptOutcome.backendOk resp ms])) =
        [(resp.filePath, resp.thumbnailPath, roundMsToSeconds ms, resp.metadata)]) := by
  constructor
  · intro hlen
    obtain ⟨⟨h1, h2, h3, h4, h5⟩, h6, h7, h8⟩ :=
      run_fail_prefix_success "generate_image" ContentType.IMAGE data resp ms pre
        imageQueueJobOptions.attempts hlen hfail initialRow
    exact ⟨h1, h2, h3, h4, h5, h6, h7, h8⟩
  · intro hlen
    obtain ⟨⟨h1, h2, h3, h4, h5⟩, h6, h7, h8⟩ :=
      run_fail_prefix_success "generate_video" ContentType.VIDEO data resp ms pre
        videoQueueJobOptions.attempts hlen hfail initialRow
    exact ⟨h1, h2, h3, h4, h5, h6, h7, h8⟩

/-- Witness for C4: one transient backend error then success, exercised on
both queues. -/
theorem C4_eventual_success_witness :
    (∀ o ∈ [AttemptOutcome.backendError "transient"], o.isFailure = true) ∧
    ([AttemptOutcome.backendError "transient"] : List AttemptOutcome).length <
      imageQueueJobOptions.attempts ∧
    ([AttemptOutcome.backendError "transient"] : List AttemptOutcome).length <
      videoQueueJobOptions.attempts ∧
    (applyTrace sampleData.outputId initialRow
        (runImageJob sampleData
          ([AttemptOutcome.backendError "transient"] ++
            [AttemptOutcome.backendOk sampleResp 1000]))).status =
      GenerationStatus.COMPLETED ∧
    usageLogs
        (runImageJob sampleData
          ([AttemptOutcome.backendError "transient"] ++
            [AttemptOutcome.backendOk sampleResp 1000])) =
      [(sampleData.userId, "generate_image", roundMsToSeconds 1000, sampleResp.metadata)] ∧
    (applyTrace sampleData.outputId initialRow
        (runVideoJob sampleData
          ([AttemptOutcome.backendError "transient"] ++
            [AttemptOutcome.backendOk sampleResp 1000]))).status =
      GenerationStatus.COMPLETED ∧
    usageLogs
        (runVideoJob sampleData
          ([AttemptOutcome.backendError "transient"] ++
            [AttemptOutcome.backendOk sampleResp 1000])) =
      [(sampleData.userId, "generate_video", roundMsToSeconds 1000, sampleResp.metadata)] := by
  have h := C4_eventual_success sampleData [AttemptOutcome.backendError "transient"]
    sampleResp 1000 (by decide)
  have hi := h.1 (by decide)
  have hv := h.2 (by decide)
  exact ⟨by decide, by decide, by decide, hi.1, hi.2.2.2.2.2.1, hv.1, hv.2.2.2.2.2.1⟩

/-- C7: no failure the failure listener observes is dropped: on a job whose
every attempt fails, whether by backend error, timeout or an exception
thrown during result persistence, every observed failure, the terminal one
included, writes FAILED with that error message to the row and emits a
generation-failed event to the channel of the owning user, on both the
image queue and the video queue; the final row is FAILED and carries one of
the observed error messages. -/
theorem C7_terminal_failure_recorded (data : GenerationJobData)
    (outcomes : List AttemptOutcome)
    (hfail : ∀ o ∈ outcomes, o.isFailure = true)
    (hne : outcomes ≠ []) :
    (failedWrites data.outputId (runImageJob data outcomes) =
        (outcomes.take imageQueueJobOptions.attempts).map (fun o => o.failureMessage.getD "") ∧
     eventsNamed "generation-failed" (runImageJob data outcomes) =
        (outcomes.take imageQueueJobOptions.attempts).map (fun o =>
          ("user-" ++ data.userId,
            NotifyPayload.failure data.outputId data.type (o.failureMessage.getD ""))) ∧
     (applyTrace data.outputId initialRow (runImageJob data outcomes)).status =
        GenerationStatus.FAILED ∧
     (∃ m, m ∈ (outcomes.take imageQueueJobOptions.attempts).map
          (fun o => o.failureMessage.getD "") ∧
        (applyTrace data.outputId initialRow (runImageJob data outcomes)).errorMessage =
          some m)) ∧
    (failedWrites data.outputId (runVideoJob data outcomes) =
        (outcomes.take videoQueueJobOptions.attempts).map (fun o => o.failureMessage.getD "") ∧
     eventsNamed "generation-failed" (runVideoJob data outcomes) =
        (outcomes.take videoQueueJobOptions.attempts).map (fun o =>
          ("user-" ++ data.userId,
            NotifyPayload.failure data.outputId data.type (o.failureMessage.getD ""))) ∧
     (applyTrace data.outputId initialRow (runVideoJob data outcomes)).status =
        GenerationStatus.FAILED ∧
     (∃ m, m ∈ (outcomes.take videoQueueJobOptions.attempts).map
          (fun o => o.failureMessage.getD "") ∧
        (applyTrace data.outputId initialRow (runVideoJob data outcomes)).errorMessage =
          some m)) := by
  obtain ⟨hi1, hi2, hi3⟩ :=
    run_all_fail "generate_image" ContentType.IMAGE data outcomes
      imageQueueJobOptions.attempts hfail
  obtain ⟨hv1, hv2, hv3⟩ :=
    run_all_fail "generate_video" ContentType.VIDEO data outcomes
      videoQueueJobOptions.attempts hfail
  obtain ⟨hi3a, hi3b⟩ := hi3 initialRow hne (by decide)
  obtain ⟨hv3a, hv3b⟩ := hv3 initialRow hne (by decide)
  exact ⟨⟨hi1, hi2, hi3a, hi3b⟩, hv1, hv2, hv3a, hv3b⟩

/-- Witness for C7: a backend error then a persistence exception. -/
theorem C7_terminal_failure_recorded_witness :
    (∀ o ∈ [AttemptOutcome.backendError "boom",
            AttemptOutcome.persistError sampleResp 5 "db write failed"],
        o.isFailure = true) ∧
    ([AttemptOutcome.backendError "boom",
      AttemptOutcome.persistError sampleResp 5 "db write failed"] ≠
        ([] : List AttemptOutcome)) ∧
    (applyTrace sampleData.outputId initialRow
        (runImageJob sampleData
          [AttemptOutcome.backendError "boom",
           AttemptOutcome.persistError sampleResp 5 "db write failed"])).status =
      GenerationStatus.FAILED ∧
    (applyTrace sampleData.outputId initialRow
        (runVideoJob sampleData
          [AttemptOutcome.backendError "boom",
           AttemptOutcome.persistError sampleResp 5 "db write failed"])).status =
      GenerationStatus.FAILED := by
  have h := C7_terminal_failure_recorded sampleData
    [AttemptOutcome.backendError "boom",
     AttemptOutcome.persistError sampleResp 5 "db write failed"]
    (by decide) (by decide)
  exact ⟨by decide, by decide, h.1.2.2.1, h.2.2.2.1⟩

end Anime

namespace Anime

/-- Witness for C5 at a concrete payload. -/
theorem C5_configuration_constants_witness :
    imageQueueJobOptions.attempts = 3 ∧
    imageQueueJobOptions.backoff.type = "exponential" ∧
    imageQueueJobOptions.backoff.delay = 2000 ∧
    (imageGenerationRequest sampleData).timeoutMs = 300000 ∧
    videoQueueJobOptions.attempts = 2 ∧
    videoQueueJobOptions.backoff.type = "exponential" ∧
    videoQueueJobOptions.backoff.delay = 5000 ∧
    (videoGenerationRequest sampleData).timeoutMs = 600000 :=
  C5_configuration_constants sampleData

/-- Witness for C9 at a concrete payload. -/
theorem C9_uninitialized_handles_throw_witness :
    addImageGenerationJob initialModuleState sampleData =
      Except.error "TypeError: imageQueue is undefined" ∧
    addVideoGenerationJob initialModuleState sampleData =
      Except.error "TypeError: videoQueue is undefined" ∧
    setupQueues initialModuleState =
      Except.error "Redis not initialized. Call setupRedis() first." ∧
    (∀ url, ∃ s2, setupQueues (setupRedis url initialModuleState) = Except.ok s2) :=
  C9_uninitialized_handles_throw sampleData

end Anime
